import Mathlib

/-!
Verification of the browser-side request panel in `static/script.js` of the
Agriculture_Web_NDVI repository.

The script installs a click handler on the `calc-btn` button.  On each click it
resets the UI (busy label, disabled button, hide the result area, clear the
result display), sends one HTTP POST to `/assess` with the selected city as a
JSON body, and then branches on the parsed response: a truthy `error` field is
alerted, otherwise the six weather dashboard elements that exist are updated
(value plus unit), the `result` markup is injected, and the result area is
revealed and scrolled into view.  Any exception thrown inside the `try` block
is logged and replaced by a generic connection-failure alert, and a `finally`
block restores the button to its idle label and enabled state.

We embed the handler as a pure state transition: DOM elements the script
queries become optional fields of a `Dom` record (`none` means
`getElementById` returned `null`), the awaited fetch/JSON-parse pair becomes a
`FetchResult` parameter, and the observable effects of one invocation (alerts,
the issued request, console logging, scrolling, the `finally` restore, and
whether an exception escaped the handler uncaught) are collected in an
`Outcome` record.
-/

/-- The `weather_summary` record of a success response:
numeric fields `temp`, `rh`, `dew`, `wind`, `vis`, `pressure`.
The values the server produces and the sample scenarios use are integral, so
they are modelled as `Int`; JavaScript renders an integral number the same way
`Int.toString` does. -/
structure WeatherSummary where
  temp : Int
  rh : Int
  dew : Int
  wind : Int
  vis : Int
  pressure : Int
deriving DecidableEq

/-- The parsed JSON response object as the handler reads it: each field the
script accesses is optional (`none` models an absent field, i.e. `undefined`
in JavaScript). -/
structure ResponseData where
  error : Option String
  weather_summary : Option WeatherSummary
  result : Option String
deriving DecidableEq

/-- Result of awaiting `fetch` and `response.json()`: `failure` covers a
network rejection as well as a body that fails to parse as JSON (both throw
into the handler's `catch`), `success` carries the parsed object. -/
inductive FetchResult where
  | failure : FetchResult
  | success : ResponseData → FetchResult
deriving DecidableEq

/-- The one outbound HTTP request the handler issues. -/
structure Request where
  url : String
  method : String
  contentType : String
  body : String
deriving DecidableEq

/-- The DOM state the script touches.  `calcBtn` is the element the handler is
installed on, so it is present by construction; every other element the script
looks up is optional: `none` means the element is absent from the document.
`resultArea` stores whether the element currently has the `hidden` class;
`resultDisplay` stores its `innerHTML`; `citySelect` stores the select's
current value; the six `w…` fields store the dashboard elements' `innerText`. -/
structure Dom where
  calcBtnText : String
  calcBtnDisabled : Bool
  resultArea : Option Bool
  resultDisplay : Option String
  citySelect : Option String
  wTemp : Option String
  wHum : Option String
  wDew : Option String
  wWind : Option String
  wVis : Option String
  wPres : Option String
deriving DecidableEq

/-- Observable effects of one click-handler invocation. `dom` is the final DOM
state; `domAtRequest` is the DOM state at the moment `fetch` is called (`none`
if the handler threw before reaching it); `alerts` lists the blocking
notifications in order; `restoreCount` counts executions of the `finally`
restore; `uncaught` records that an exception escaped the handler. -/
structure Outcome where
  dom : Dom
  domAtRequest : Option Dom
  request : Option Request
  fetchCount : Nat
  alerts : List String
  loggedError : Bool
  scrolled : Bool
  restoreCount : Nat
  uncaught : Bool
deriving DecidableEq

/-- The busy label set at the top of the handler. -/
def busyLabel : String := "Connecting to Satellite..."

/-- The idle label restored in the `finally` block. -/
def idleLabel : String := "Analyze Satellite Data"

/-- The generic alert text of the `catch` block. -/
def connFailMsg : String := "Connection Failed. Please check internet connection."

/-- Hex digit as produced by `JSON.stringify` in `\u00XX` escapes. -/
def hexDigit (n : Nat) : Char :=
  if n < 10 then Char.ofNat (48 + n) else Char.ofNat (87 + n)

/-- Escaping of one character as performed by `JSON.stringify` on strings. -/
def jsonEscapeChar (c : Char) : String :=
  if c = '"' then "\\\""
  else if c = '\\' then "\\\\"
  else if c = '\x08' then "\\b"
  else if c = '\x0c' then "\\f"
  else if c = '\n' then "\\n"
  else if c = '\r' then "\\r"
  else if c = '\t' then "\\t"
  else if c.toNat < 32 then
    "\\u00" ++ String.singleton (hexDigit (c.toNat / 16))
      ++ String.singleton (hexDigit (c.toNat % 16))
  else String.singleton c

/-- `JSON.stringify` of a string value. -/
def jsonQuote (s : String) : String :=
  "\"" ++ String.join (s.toList.map jsonEscapeChar) ++ "\""

/-- `JSON.stringify(\x7b city: v \x7d)`: the request body built from the
selected city. -/
def stringifyPayload (city : String) : String :=
  "\x7b\"city\":" ++ jsonQuote city ++ "\x7d"

/-- The request the handler passes to `fetch`. -/
def mkRequest (city : String) : Request :=
  { url := "/assess", method := "POST", contentType := "application/json",
    body := stringifyPayload city }

/-- JavaScript truthiness of `data.error` as a string-or-absent value:
`undefined` and the empty string are falsy, every other string is truthy. -/
def truthy : Option String → Bool
  | none => false
  | some s => s != ""

/-- One guarded dashboard update, e.g.
`if(wTemp) wTemp.innerText = data.weather_summary.temp + "°C"`:
an absent element is skipped; a present element forces the read of
`data.weather_summary`, which throws (`Except.error`) when the field is
absent (`undefined.temp`). -/
def applyField (w : Option String) (ws : Option WeatherSummary)
    (render : WeatherSummary → String) : Except Unit (Option String) :=
  match w, ws with
  | none, _ => Except.ok none
  | some _, none => Except.error ()
  | some _, some s => Except.ok (some (render s))

/-- Rendered text for the temperature element: value plus `°C`. -/
def renderTemp (s : WeatherSummary) : String := toString s.temp ++ "°C"

/-- Rendered text for the humidity element: value plus `%`. -/
def renderHum (s : WeatherSummary) : String := toString s.rh ++ "%"

/-- Rendered text for the dew-point element: value plus `°C`. -/
def renderDew (s : WeatherSummary) : String := toString s.dew ++ "°C"

/-- Rendered text for the wind element: value plus `" km/h"` (the script
concatenates a leading space with the unit). -/
def renderWind (s : WeatherSummary) : String := toString s.wind ++ " km/h"

/-- Rendered text for the visibility element: value plus `" km"`. -/
def renderVis (s : WeatherSummary) : String := toString s.vis ++ " km"

/-- Rendered text for the pressure element: value plus `" hPa"`. -/
def renderPres (s : WeatherSummary) : String := toString s.pressure ++ " hPa"

/-- The six sequential guarded updates of the success branch, in source
order.  An `Except.error` models the `TypeError` thrown by reading a field of
an absent `weather_summary`; because an update is only attempted for a present
element, a throw can only happen when `weather_summary` is absent, in which
case no element text has been written yet. -/
def setSix (d : Dom) (ws : Option WeatherSummary) : Except Unit Dom := do
  let t ← applyField d.wTemp ws renderTemp
  let h ← applyField d.wHum ws renderHum
  let dw ← applyField d.wDew ws renderDew
  let wd ← applyField d.wWind ws renderWind
  let v ← applyField d.wVis ws renderVis
  let p ← applyField d.wPres ws renderPres
  Except.ok { d with wTemp := t, wHum := h, wDew := dw, wWind := wd,
                     wVis := v, wPres := p }

/-- All six dashboard elements are absent from the document. -/
def sixAbsent (d : Dom) : Bool :=
  d.wTemp.isNone && d.wHum.isNone && d.wDew.isNone &&
    d.wWind.isNone && d.wVis.isNone && d.wPres.isNone

/-- The "Force Reset UI" prologue of the handler, as it ends up when the three
fixed elements are present: busy label, disabled button, `hidden` class added
to the result area, result display cleared. -/
def resetPanel (d : Dom) : Dom :=
  { d with calcBtnText := busyLabel, calcBtnDisabled := true,
           resultArea := some true, resultDisplay := some "" }

/-- The `finally` block: restore the idle label and re-enable the button. -/
def toIdle (d : Dom) : Dom :=
  { d with calcBtnText := idleLabel, calcBtnDisabled := false }

/-- Outcome of an exception escaping the handler before the `try` block is
entered: no request, no alert, no restore. -/
def abortOutcome (d : Dom) : Outcome :=
  { dom := d, domAtRequest := none, request := none, fetchCount := 0,
    alerts := [], loggedError := false, scrolled := false,
    restoreCount := 0, uncaught := true }

/-- Outcome of the `catch` block (entered with DOM state `d`): log, generic
alert, then the `finally` restore. -/
def catchOutcome (d : Dom) (dReq : Dom) (req : Request) : Outcome :=
  { dom := toIdle d, domAtRequest := some dReq, request := some req,
    fetchCount := 1, alerts := [connFailMsg], loggedError := true,
    scrolled := false, restoreCount := 1, uncaught := false }

/-- Outcome of the `data.error` branch: one alert `"Alert: " + data.error`,
no display update, then the `finally` restore. -/
def errorBranch (d : Dom) (req : Request) (e : String) : Outcome :=
  { dom := toIdle d, domAtRequest := some d, request := some req,
    fetchCount := 1, alerts := ["Alert: " ++ e], loggedError := false,
    scrolled := false, restoreCount := 1, uncaught := false }

/-- The success branch: guarded dashboard updates, injection of `data.result`
into the result display (an absent field is stringified to `"undefined"` by
the `innerHTML` setter), reveal of the result area, smooth scroll, then the
`finally` restore; a throw during the updates falls into the `catch` block. -/
def elseBranch (d : Dom) (req : Request) (data : ResponseData) : Outcome :=
  match setSix d data.weather_summary with
  | Except.error _ => catchOutcome d d req
  | Except.ok d4 =>
    let d5 : Dom := { d4 with resultDisplay := some (data.result.getD "undefined"),
                              resultArea := some false }
    { dom := toIdle d5, domAtRequest := some d, request := some req,
      fetchCount := 1, alerts := [], loggedError := false,
      scrolled := true, restoreCount := 1, uncaught := false }

/-- The click handler of `calc-btn`, as a function of the initial DOM state
and the result of the awaited fetch/parse.  The prologue runs before the
`try` block, so an absent `result-area`, `result-display` or `city` element
makes the handler throw uncaught, with the statements already executed left in
place.  With the three elements present the prologue equals `resetPanel`, one
request is issued, and the handler branches on the response exactly as the
script does. -/
def clickHandler (d0 : Dom) (f : FetchResult) : Outcome :=
  let dBusy : Dom := { d0 with calcBtnText := busyLabel, calcBtnDisabled := true }
  match d0.resultArea with
  | none => abortOutcome dBusy
  | some _ =>
    match d0.resultDisplay with
    | none => abortOutcome { dBusy with resultArea := some true }
    | some _ =>
      match d0.citySelect with
      | none => abortOutcome { dBusy with resultArea := some true,
                                          resultDisplay := some "" }
      | some city =>
        let d3 : Dom := resetPanel d0
        let req : Request := mkRequest city
        match f with
        | FetchResult.failure => catchOutcome d3 d3 req
        | FetchResult.success data =>
          match data.error with
          | some e =>
            if e = "" then elseBranch d3 req data else errorBranch d3 req e
          | none => elseBranch d3 req data

/-- The three fixed elements the handler dereferences unguardedly are present
in the document. -/
def panelWired (d : Dom) : Bool :=
  d.resultArea.isSome && d.resultDisplay.isSome && d.citySelect.isSome

/-- A run ends revealing the result area exactly on the completed success
path: a parsed response, falsy `error`, and a dashboard update that does not
throw (`weather_summary` present, or every dashboard element absent). -/
def successPath (d : Dom) (f : FetchResult) : Bool :=
  match f with
  | FetchResult.failure => false
  | FetchResult.success data =>
    !truthy data.error && (data.weather_summary.isSome || sixAbsent d)

/-- The `try` block throws: the fetch/parse failed, or `error` is falsy and a
present dashboard element forces a field read of an absent
`weather_summary`. -/
def throwsInTry (d : Dom) (f : FetchResult) : Bool :=
  match f with
  | FetchResult.failure => true
  | FetchResult.success data =>
    !truthy data.error && data.weather_summary.isNone && !sixAbsent d

/-- A fully wired sample DOM in its idle state (all elements present). -/
def sampleDom : Dom :=
  { calcBtnText := idleLabel, calcBtnDisabled := false,
    resultArea := some false, resultDisplay := some "<p>old</p>",
    citySelect := some "Paris",
    wTemp := some "", wHum := some "", wDew := some "",
    wWind := some "", wVis := some "", wPres := some "" }

/-- The sample DOM with the `result-display` element missing. -/
def noDisplayDom : Dom :=
  { sampleDom with resultDisplay := none }

/-- The sample DOM with two of the six dashboard elements missing. -/
def mixedDom : Dom :=
  { sampleDom with wDew := none, wPres := none }

/-- The weather summary of the spec's sample scenario. -/
def goodSummary : WeatherSummary :=
  { temp := 20, rh := 50, dew := 10, wind := 5, vis := 10, pressure := 1012 }

/-- The success response of the spec's sample scenario. -/
def goodResp : ResponseData :=
  { error := none, weather_summary := some goodSummary,
    result := some "<p>Clear</p>" }

/-- A response whose `error` field is present but empty: falsy in JavaScript. -/
def emptyErrorResp : ResponseData :=
  { error := some "", weather_summary := none, result := none }

/-- The server-error response of the spec's sample scenario. -/
def notFoundResp : ResponseData :=
  { error := some "city not found", weather_summary := none, result := none }

example :
    (clickHandler sampleDom (FetchResult.success goodResp)).dom.wTemp
      = some "20°C" := by decide

example :
    (clickHandler sampleDom (FetchResult.success notFoundResp)).alerts
      = ["Alert: city not found"] := by decide

example :
    (clickHandler sampleDom FetchResult.failure).alerts = [connFailMsg] := by
  decide

example :
    (clickHandler sampleDom (FetchResult.success emptyErrorResp)).alerts
      = [connFailMsg] := by decide

example :
    (clickHandler noDisplayDom (FetchResult.success goodResp)).uncaught
      = true := by decide

example :
    (clickHandler sampleDom FetchResult.failure).request
      = some { url := "/assess", method := "POST",
               contentType := "application/json",
               body := "\x7b\"city\":\"Paris\"\x7d" } := by decide

/-- Guarded update against a present `weather_summary`: a present element is
rendered, an absent one stays absent. -/
theorem applyField_some (w : Option String) (ws : WeatherSummary)
    (r : WeatherSummary → String) :
    applyField w (some ws) r = Except.ok (w.map fun _ => r ws) := by
  cases w <;> rfl

/-- With `weather_summary` present the six updates never throw: each present
element gets its rendered text, absent elements are skipped. -/
theorem setSix_some (d : Dom) (ws : WeatherSummary) :
    setSix d (some ws) = Except.ok
      { d with wTemp := d.wTemp.map fun _ => renderTemp ws,
               wHum := d.wHum.map fun _ => renderHum ws,
               wDew := d.wDew.map fun _ => renderDew ws,
               wWind := d.wWind.map fun _ => renderWind ws,
               wVis := d.wVis.map fun _ => renderVis ws,
               wPres := d.wPres.map fun _ => renderPres ws } := by
  simp [setSix, applyField_some, Bind.bind, Except.bind]

/-- With `weather_summary` absent and every dashboard element absent, the six
guards all skip and nothing throws. -/
theorem setSix_none_ok (d : Dom) (h : sixAbsent d = true) :
    setSix d none = Except.ok d := by
  obtain ⟨bt, bd, ra, rd, cs, w1, w2, w3, w4, w5, w6⟩ := d
  cases w1 <;> cases w2 <;> cases w3 <;> cases w4 <;> cases w5 <;> cases w6 <;>
    simp_all [setSix, sixAbsent, applyField, Bind.bind, Except.bind]

/-- With `weather_summary` absent and some dashboard element present, the
first present guard throws reading a field of `undefined`. -/
theorem setSix_none_error (d : Dom) (h : sixAbsent d = false) :
    setSix d none = Except.error () := by
  obtain ⟨bt, bd, ra, rd, cs, w1, w2, w3, w4, w5, w6⟩ := d
  cases w1 <;> cases w2 <;> cases w3 <;> cases w4 <;> cases w5 <;> cases w6 <;>
    simp_all [setSix, sixAbsent, applyField, Bind.bind, Except.bind]

/-- Unfolding of the handler when the three fixed elements are present. -/
theorem clickHandler_wired (d : Dom) (a : Bool) (s c : String) (f : FetchResult)
    (ha : d.resultArea = some a) (hs : d.resultDisplay = some s)
    (hc : d.citySelect = some c) :
    clickHandler d f =
      match f with
      | FetchResult.failure => catchOutcome (resetPanel d) (resetPanel d) (mkRequest c)
      | FetchResult.success data =>
        match data.error with
        | some e =>
          if e = "" then elseBranch (resetPanel d) (mkRequest c) data
          else errorBranch (resetPanel d) (mkRequest c) e
        | none => elseBranch (resetPanel d) (mkRequest c) data := by
  simp [clickHandler, ha, hs, hc, resetPanel]

/-- `resetPanel` does not touch the six dashboard elements. -/
theorem sixAbsent_resetPanel (d : Dom) : sixAbsent (resetPanel d) = sixAbsent d := rfl

/-- Unpacking of `panelWired`. -/
theorem panelWired_elim {d : Dom} (h : panelWired d = true) :
    ∃ a s c, d.resultArea = some a ∧ d.resultDisplay = some s ∧
      d.citySelect = some c := by
  simp only [panelWired, Bool.and_eq_true, Option.isSome_iff_exists] at h
  obtain ⟨⟨⟨a, ha⟩, ⟨s, hs⟩⟩, ⟨c, hc⟩⟩ := h
  exact ⟨a, s, c, ha, hs, hc⟩

/-- Master invariants of a wired run: whatever the fetch outcome, the handler
reaches the `try` block with the reset DOM, issues exactly one request, shows
at most one alert, runs the `finally` restore exactly once, and lets no
exception escape. -/
theorem clickHandler_run (d : Dom) (a : Bool) (s c : String) (f : FetchResult)
    (ha : d.resultArea = some a) (hs : d.resultDisplay = some s)
    (hc : d.citySelect = some c) :
    (clickHandler d f).restoreCount = 1 ∧
      (clickHandler d f).dom.calcBtnDisabled = false ∧
      (clickHandler d f).dom.calcBtnText = idleLabel ∧
      (clickHandler d f).fetchCount = 1 ∧
      (clickHandler d f).request = some (mkRequest c) ∧
      (clickHandler d f).alerts.length ≤ 1 ∧
      (clickHandler d f).domAtRequest = some (resetPanel d) ∧
      (clickHandler d f).uncaught = false := by
  rw [clickHandler_wired d a s c f ha hs hc]
  cases f with
  | failure => simp [catchOutcome, toIdle]
  | success data =>
    rcases hde : data.error with _ | e
    · simp only [hde]
      cases hss : setSix (resetPanel d) data.weather_summary with
      | error u => simp [elseBranch, hss, catchOutcome, toIdle]
      | ok d4 => simp [elseBranch, hss, toIdle]
    · rcases eq_or_ne e "" with rfl | hE
      · simp only [hde, if_true]
        cases hss : setSix (resetPanel d) data.weather_summary with
        | error u => simp [elseBranch, hss, catchOutcome, toIdle]
        | ok d4 => simp [elseBranch, hss, toIdle]
      · simp [hde, hE, errorBranch, toIdle]

/-- C1: for every trigger invocation — whether the request cycle ends in
success, a server-reported error, or a thrown transport/parse failure — the
`finally` restore runs exactly once, re-enabling the button and resetting its
label to the original action text. -/
theorem c1_control_restored_idle (d : Dom) (f : FetchResult)
    (hw : panelWired d = true) (h0 : d.calcBtnText = idleLabel) :
    (clickHandler d f).restoreCount = 1 ∧
      (clickHandler d f).dom.calcBtnDisabled = false ∧
      (clickHandler d f).dom.calcBtnText = d.calcBtnText := by
  obtain ⟨a, s, c, ha, hs, hc⟩ := panelWired_elim hw
  obtain ⟨h1, h2, h3, -⟩ := clickHandler_run d a s c f ha hs hc
  rw [h0]
  exact ⟨h1, h2, h3⟩

/-- Witness for C1 at a concrete wired DOM and a transport failure. -/
theorem c1_control_restored_idle_witness :
    panelWired sampleDom = true ∧ sampleDom.calcBtnText = idleLabel ∧
      ((clickHandler sampleDom FetchResult.failure).restoreCount = 1 ∧
        (clickHandler sampleDom FetchResult.failure).dom.calcBtnDisabled = false ∧
        (clickHandler sampleDom FetchResult.failure).dom.calcBtnText
          = sampleDom.calcBtnText) :=
  ⟨by decide, rfl,
    c1_control_restored_idle sampleDom FetchResult.failure (by decide) rfl⟩

/-- C6: every trigger invocation of a wired panel issues exactly one request,
an HTTP POST to `/assess` with a JSON content-type header and body the JSON
encoding of the object with the selected city under the key `city`. -/
theorem c6_single_post (d : Dom) (f : FetchResult) (c : String)
    (hw : panelWired d = true) (hc : d.citySelect = some c) :
    (clickHandler d f).fetchCount = 1 ∧
      (clickHandler d f).request =
        some { url := "/assess", method := "POST",
               contentType := "application/json",
               body := stringifyPayload c } := by
  obtain ⟨a, s, c0, ha, hs, hc0⟩ := panelWired_elim hw
  obtain ⟨-, -, -, h4, h5, -⟩ := clickHandler_run d a s c0 f ha hs hc0
  obtain rfl : c0 = c := Option.some.inj (hc0.symm.trans hc)
  exact ⟨h4, h5⟩

/-- Witness for C6 at a concrete wired DOM with city `Paris`. -/
theorem c6_single_post_witness :
    panelWired sampleDom = true ∧ sampleDom.citySelect = some "Paris" ∧
      ((clickHandler sampleDom FetchResult.failure).fetchCount = 1 ∧
        (clickHandler sampleDom FetchResult.failure).request =
          some { url := "/assess", method := "POST",
                 contentType := "application/json",
                 body := stringifyPayload "Paris" }) :=
  ⟨by decide, rfl,
    c6_single_post sampleDom FetchResult.failure "Paris" (by decide) rfl⟩

/-- C7: every trigger invocation of a wired panel reaches the fetch with the
busy-state DOM: button disabled with the working label, result area hidden,
result display cleared, the six dashboard elements untouched; and the reset is
idempotent, so it is a no-op in effect when no prior result exists. -/
theorem c7_busy_reset (d : Dom) (f : FetchResult) (hw : panelWired d = true) :
    (clickHandler d f).domAtRequest = some (resetPanel d) ∧
      (resetPanel d).calcBtnDisabled = true ∧
      (resetPanel d).calcBtnText = busyLabel ∧
      (resetPanel d).resultArea = some true ∧
      (resetPanel d).resultDisplay = some "" ∧
      (resetPanel d).wTemp = d.wTemp ∧ (resetPanel d).wHum = d.wHum ∧
      (resetPanel d).wDew = d.wDew ∧ (resetPanel d).wWind = d.wWind ∧
      (resetPanel d).wVis = d.wVis ∧ (resetPanel d).wPres = d.wPres ∧
      resetPanel (resetPanel d) = resetPanel d := by
  obtain ⟨a, s, c, ha, hs, hc⟩ := panelWired_elim hw
  obtain ⟨-, -, -, -, -, -, h7, -⟩ := clickHandler_run d a s c f ha hs hc
  exact ⟨h7, rfl, rfl, rfl, rfl, rfl, rfl, rfl, rfl, rfl, rfl, rfl⟩

/-- Witness for C7 at a concrete wired DOM holding a previous result. -/
theorem c7_busy_reset_witness :
    panelWired sampleDom = true ∧
      ((clickHandler sampleDom FetchResult.failure).domAtRequest
          = some (resetPanel sampleDom) ∧
        (resetPanel sampleDom).calcBtnDisabled = true ∧
        (resetPanel sampleDom).calcBtnText = busyLabel ∧
        (resetPanel sampleDom).resultArea = some true ∧
        (resetPanel sampleDom).resultDisplay = some "" ∧
        (resetPanel sampleDom).wTemp = sampleDom.wTemp ∧
        (resetPanel sampleDom).wHum = sampleDom.wHum ∧
        (resetPanel sampleDom).wDew = sampleDom.wDew ∧
        (resetPanel sampleDom).wWind = sampleDom.wWind ∧
        (resetPanel sampleDom).wVis = sampleDom.wVis ∧
        (resetPanel sampleDom).wPres = sampleDom.wPres ∧
        resetPanel (resetPanel sampleDom) = resetPanel sampleDom) :=
  ⟨by decide, c7_busy_reset sampleDom FetchResult.failure (by decide)⟩

/-- C8: per trigger invocation of a wired panel, at most one blocking
notification is shown and exactly one outbound network call is made; in
particular the error-branch alert and the catch-branch alert never both
occur in one cycle. -/
theorem c8_one_alert_one_call (d : Dom) (f : FetchResult)
    (hw : panelWired d = true) :
    (clickHandler d f).alerts.length ≤ 1 ∧
      (clickHandler d f).fetchCount = 1 := by
  obtain ⟨a, s, c, ha, hs, hc⟩ := panelWired_elim hw
  obtain ⟨-, -, -, h4, -, h6, -⟩ := clickHandler_run d a s c f ha hs hc
  exact ⟨h6, h4⟩

/-- Witness for C8 at a concrete wired DOM and a server-error response. -/
theorem c8_one_alert_one_call_witness :
    panelWired sampleDom = true ∧
      ((clickHandler sampleDom (FetchResult.success notFoundResp)).alerts.length
          ≤ 1 ∧
        (clickHandler sampleDom (FetchResult.success notFoundResp)).fetchCount
          = 1) :=
  ⟨by decide,
    c8_one_alert_one_call sampleDom (FetchResult.success notFoundResp) (by decide)⟩

/-- C2 counterexample: for the parsed response whose `error` field is present
with the empty-string value, the handler does not alert `"Alert: "` — the
empty string is falsy in `if (data.error)`, so the success branch runs, throws
on the absent `weather_summary`, and the generic connection-failure alert is
shown instead. -/
theorem c2_empty_error_cex :
    emptyErrorResp.error = some "" ∧
      (clickHandler sampleDom (FetchResult.success emptyErrorResp)).alerts
        ≠ ["Alert: " ++ ""] ∧
      (clickHandler sampleDom (FetchResult.success emptyErrorResp)).alerts
        = [connFailMsg] := by decide

/-- C2 (amended): for every parsed response whose `error` field is present
with a non-empty value `e`, the handler shows exactly the blocking alert
`"Alert: " ++ e`, skips the display update (the six dashboard elements keep
their prior text), and the results container remains hidden. -/
theorem c2_error_branch_alert (d : Dom) (data : ResponseData) (e : String)
    (hw : panelWired d = true) (he : data.error = some e) (hne : e ≠ "") :
    (clickHandler d (FetchResult.success data)).alerts = ["Alert: " ++ e] ∧
      (clickHandler d (FetchResult.success data)).dom.resultArea = some true ∧
      (clickHandler d (FetchResult.success data)).scrolled = false ∧
      (clickHandler d (FetchResult.success data)).dom.wTemp = d.wTemp ∧
      (clickHandler d (FetchResult.success data)).dom.wHum = d.wHum ∧
      (clickHandler d (FetchResult.success data)).dom.wDew = d.wDew ∧
      (clickHandler d (FetchResult.success data)).dom.wWind = d.wWind ∧
      (clickHandler d (FetchResult.success data)).dom.wVis = d.wVis ∧
      (clickHandler d (FetchResult.success data)).dom.wPres = d.wPres := by
  obtain ⟨a, s, c, ha, hs, hc⟩ := panelWired_elim hw
  rw [clickHandler_wired d a s c _ ha hs hc]
  simp [he, hne, errorBranch, toIdle, resetPanel]

/-- Witness for the amended C2 at the spec's `city not found` scenario. -/
theorem c2_error_branch_alert_witness :
    panelWired sampleDom = true ∧ notFoundResp.error = some "city not found" ∧
      "city not found" ≠ "" ∧
      ((clickHandler sampleDom (FetchResult.success notFoundResp)).alerts
          = ["Alert: " ++ "city not found"] ∧
        (clickHandler sampleDom (FetchResult.success notFoundResp)).dom.resultArea
          = some true ∧
        (clickHandler sampleDom (FetchResult.success notFoundResp)).scrolled
          = false ∧
        (clickHandler sampleDom (FetchResult.success notFoundResp)).dom.wTemp
          = sampleDom.wTemp ∧
        (clickHandler sampleDom (FetchResult.success notFoundResp)).dom.wHum
          = sampleDom.wHum ∧
        (clickHandler sampleDom (FetchResult.success notFoundResp)).dom.wDew
          = sampleDom.wDew ∧
        (clickHandler sampleDom (FetchResult.success notFoundResp)).dom.wWind
          = sampleDom.wWind ∧
        (clickHandler sampleDom (FetchResult.success notFoundResp)).dom.wVis
          = sampleDom.wVis ∧
        (clickHandler sampleDom (FetchResult.success notFoundResp)).dom.wPres
          = sampleDom.wPres) :=
  ⟨by decide, rfl, by decide,
    c2_error_branch_alert sampleDom notFoundResp "city not found" (by decide)
      rfl (by decide)⟩

/-- C3: for every well-formed success response (no `error` field,
`weather_summary` present), each of the six dashboard elements present in the
document is set to its field's value suffixed with its unit, absent elements
are skipped, no alert is shown and no exception escapes. -/
theorem c3_success_field_updates (d : Dom) (data : ResponseData)
    (ws : WeatherSummary) (hw : panelWired d = true)
    (he : data.error = none) (hws : data.weather_summary = some ws) :
    (clickHandler d (FetchResult.success data)).uncaught = false ∧
      (clickHandler d (FetchResult.success data)).alerts = [] ∧
      (clickHandler d (FetchResult.success data)).dom.wTemp
        = d.wTemp.map (fun _ => toString ws.temp ++ "°C") ∧
      (clickHandler d (FetchResult.success data)).dom.wHum
        = d.wHum.map (fun _ => toString ws.rh ++ "%") ∧
      (clickHandler d (FetchResult.success data)).dom.wDew
        = d.wDew.map (fun _ => toString ws.dew ++ "°C") ∧
      (clickHandler d (FetchResult.success data)).dom.wWind
        = d.wWind.map (fun _ => toString ws.wind ++ " km/h") ∧
      (clickHandler d (FetchResult.success data)).dom.wVis
        = d.wVis.map (fun _ => toString ws.vis ++ " km") ∧
      (clickHandler d (FetchResult.success data)).dom.wPres
        = d.wPres.map (fun _ => toString ws.pressure ++ " hPa") := by
  obtain ⟨a, s, c, ha, hs, hc⟩ := panelWired_elim hw
  rw [clickHandler_wired d a s c _ ha hs hc]
  simp [he, elseBranch, hws, setSix_some, toIdle, resetPanel,
    renderTemp, renderHum, renderDew, renderWind, renderVis, renderPres]

/-- Witness for C3 at a DOM with two dashboard elements absent and the spec's
sample success response. -/
theorem c3_success_field_updates_witness :
    panelWired mixedDom = true ∧ goodResp.error = none ∧
      goodResp.weather_summary = some goodSummary ∧
      ((clickHandler mixedDom (FetchResult.success goodResp)).uncaught = false ∧
        (clickHandler mixedDom (FetchResult.success goodResp)).alerts = [] ∧
        (clickHandler mixedDom (FetchResult.success goodResp)).dom.wTemp
          = mixedDom.wTemp.map (fun _ => toString goodSummary.temp ++ "°C") ∧
        (clickHandler mixedDom (FetchResult.success goodResp)).dom.wHum
          = mixedDom.wHum.map (fun _ => toString goodSummary.rh ++ "%") ∧
        (clickHandler mixedDom (FetchResult.success goodResp)).dom.wDew
          = mixedDom.wDew.map (fun _ => toString goodSummary.dew ++ "°C") ∧
        (clickHandler mixedDom (FetchResult.success goodResp)).dom.wWind
          = mixedDom.wWind.map (fun _ => toString goodSummary.wind ++ " km/h") ∧
        (clickHandler mixedDom (FetchResult.success goodResp)).dom.wVis
          = mixedDom.wVis.map (fun _ => toString goodSummary.vis ++ " km") ∧
        (clickHandler mixedDom (FetchResult.success goodResp)).dom.wPres
          = mixedDom.wPres.map (fun _ => toString goodSummary.pressure ++ " hPa")) :=
  ⟨by decide, rfl, rfl,
    c3_success_field_updates mixedDom goodResp goodSummary (by decide) rfl rfl⟩

/-- C10: on the server-error branch the six dashboard elements keep their
pre-trigger text, while the previous result markup does not persist: it was
cleared and its container hidden already at trigger time, before the response
arrived, and it stays that way. -/
theorem c10_error_branch_frame (d : Dom) (data : ResponseData) (e : String)
    (hw : panelWired d = true) (he : data.error = some e) (hne : e ≠ "") :
    (clickHandler d (FetchResult.success data)).dom.wTemp = d.wTemp ∧
      (clickHandler d (FetchResult.success data)).dom.wHum = d.wHum ∧
      (clickHandler d (FetchResult.success data)).dom.wDew = d.wDew ∧
      (clickHandler d (FetchResult.success data)).dom.wWind = d.wWind ∧
      (clickHandler d (FetchResult.success data)).dom.wVis = d.wVis ∧
      (clickHandler d (FetchResult.success data)).dom.wPres = d.wPres ∧
      (clickHandler d (FetchResult.success data)).dom.resultDisplay = some "" ∧
      (clickHandler d (FetchResult.success data)).dom.resultArea = some true ∧
      (clickHandler d (FetchResult.success data)).domAtRequest
        = some (resetPanel d) ∧
      (resetPanel d).resultDisplay = some "" ∧
      (resetPanel d).resultArea = some true := by
  obtain ⟨a, s, c, ha, hs, hc⟩ := panelWired_elim hw
  rw [clickHandler_wired d a s c _ ha hs hc]
  simp [he, hne, errorBranch, toIdle, resetPanel]

/-- Witness for C10 at a DOM holding a previous result and the spec's
`city not found` response. -/
theorem c10_error_branch_frame_witness :
    panelWired sampleDom = true ∧ notFoundResp.error = some "city not found" ∧
      ((clickHandler sampleDom (FetchResult.success notFoundResp)).dom.wTemp
          = sampleDom.wTemp ∧
        (clickHandler sampleDom (FetchResult.success notFoundResp)).dom.wHum
          = sampleDom.wHum ∧
        (clickHandler sampleDom (FetchResult.success notFoundResp)).dom.wDew
          = sampleDom.wDew ∧
        (clickHandler sampleDom (FetchResult.success notFoundResp)).dom.wWind
          = sampleDom.wWind ∧
        (clickHandler sampleDom (FetchResult.success notFoundResp)).dom.wVis
          = sampleDom.wVis ∧
        (clickHandler sampleDom (FetchResult.success notFoundResp)).dom.wPres
          = sampleDom.wPres ∧
        (clickHandler sampleDom (FetchResult.success notFoundResp)).dom.resultDisplay
          = some "" ∧
        (clickHandler sampleDom (FetchResult.success notFoundResp)).dom.resultArea
          = some true ∧
        (clickHandler sampleDom (FetchResult.success notFoundResp)).domAtRequest
          = some (resetPanel sampleDom) ∧
        (resetPanel sampleDom).resultDisplay = some "" ∧
        (resetPanel sampleDom).resultArea = some true) :=
  ⟨by decide, rfl,
    c10_error_branch_frame sampleDom notFoundResp "city not found" (by decide)
      rfl (by decide)⟩

/-- The success branch reveals the result area exactly when the guarded
updates do not throw: `weather_summary` present, or all six elements absent. -/
theorem elseBranch_reveal (d : Dom) (req : Request) (data : ResponseData) :
    ((elseBranch (resetPanel d) req data).dom.resultArea = some false)
      ↔ (data.weather_summary.isSome || sixAbsent d) = true := by
  rcases hws : data.weather_summary with _ | ws
  · cases hsix : sixAbsent d with
    | false =>
      have hE := setSix_none_error (resetPanel d)
        (by rw [sixAbsent_resetPanel]; exact hsix)
      simp only [elseBranch, hws, hE]
      simp [catchOutcome, toIdle, resetPanel, hsix]
    | true =>
      have hO := setSix_none_ok (resetPanel d)
        (by rw [sixAbsent_resetPanel]; exact hsix)
      simp [elseBranch, hws, hO, toIdle]
  · simp [elseBranch, hws, setSix_some, toIdle]

/-- C4: the results container ends revealed exactly on the completed success
path; it is never revealed on the server-error branch or on a transport
failure (on those paths it keeps the `hidden` class added at trigger time). -/
theorem c4_reveal_only_on_success (d : Dom) (f : FetchResult)
    (hw : panelWired d = true) :
    ((clickHandler d f).dom.resultArea = some false ↔ successPath d f = true) := by
  obtain ⟨a, s, c, ha, hs, hc⟩ := panelWired_elim hw
  rw [clickHandler_wired d a s c f ha hs hc]
  cases f with
  | failure => simp [catchOutcome, toIdle, resetPanel, successPath]
  | success data =>
    rcases hde : data.error with _ | e
    · simp only [hde]
      rw [elseBranch_reveal]
      simp [successPath, truthy, hde]
    · rcases eq_or_ne e "" with rfl | hE
      · simp only [hde, if_true]
        rw [elseBranch_reveal]
        simp [successPath, truthy, hde]
      · simp [hde, hE, errorBranch, toIdle, resetPanel, successPath, truthy,
          bne_iff_ne]

/-- Witness for C4 at a concrete wired DOM and the sample success response. -/
theorem c4_reveal_only_on_success_witness :
    panelWired sampleDom = true ∧
      ((clickHandler sampleDom (FetchResult.success goodResp)).dom.resultArea
          = some false
        ↔ successPath sampleDom (FetchResult.success goodResp) = true) :=
  ⟨by decide,
    c4_reveal_only_on_success sampleDom (FetchResult.success goodResp) (by decide)⟩

/-- C5: on every failure thrown inside the `try` block — a network rejection
or non-JSON body, or the success branch throwing on an absent
`weather_summary` — the handler logs the failure, alerts exactly the generic
connection-failure text, and the button is re-enabled afterwards. -/
theorem c5_catch_generic_alert (d : Dom) (f : FetchResult)
    (hw : panelWired d = true) (ht : throwsInTry d f = true) :
    (clickHandler d f).loggedError = true ∧
      (clickHandler d f).alerts = [connFailMsg] ∧
      (clickHandler d f).dom.calcBtnDisabled = false := by
  obtain ⟨a, s, c, ha, hs, hc⟩ := panelWired_elim hw
  rw [clickHandler_wired d a s c f ha hs hc]
  cases f with
  | failure => simp [catchOutcome, toIdle]
  | success data =>
    simp only [throwsInTry, Bool.and_eq_true, Bool.not_eq_true',
      Option.isNone_iff_eq_none] at ht
    obtain ⟨⟨ht1, ht2⟩, ht3⟩ := ht
    have hErr := setSix_none_error (resetPanel d)
      (by rw [sixAbsent_resetPanel]; exact ht3)
    rcases hde : data.error with _ | e
    · simp only [hde, elseBranch, ht2, hErr]
      simp [catchOutcome, toIdle]
    · obtain rfl : e = "" := by
        rw [hde] at ht1
        simpa [truthy] using ht1
      simp only [hde, if_true, elseBranch, ht2, hErr]
      simp [catchOutcome, toIdle]

/-- Witness for C5 at a concrete wired DOM and a network rejection. -/
theorem c5_catch_generic_alert_witness :
    panelWired sampleDom = true ∧
      throwsInTry sampleDom FetchResult.failure = true ∧
      ((clickHandler sampleDom FetchResult.failure).loggedError = true ∧
        (clickHandler sampleDom FetchResult.failure).alerts = [connFailMsg] ∧
        (clickHandler sampleDom FetchResult.failure).dom.calcBtnDisabled
          = false) :=
  ⟨by decide, rfl,
    c5_catch_generic_alert sampleDom FetchResult.failure (by decide) rfl⟩

/-- C9 counterexample: with the results display element absent and a
well-formed success response, the cycle does not end with the generic
connectivity-failure notification and the button is not restored to idle —
the clear statement `resultDisplay.innerHTML = ""` sits before the `try`
block, so the thrown `TypeError` escapes the handler: no alert at all, and
the button stays disabled with the working label. -/
theorem c9_missing_display_cex :
    noDisplayDom.resultDisplay = none ∧
      (clickHandler noDisplayDom (FetchResult.success goodResp)).alerts = [] ∧
      (clickHandler noDisplayDom (FetchResult.success goodResp)).dom.calcBtnDisabled
        = true ∧
      (clickHandler noDisplayDom (FetchResult.success goodResp)).dom.calcBtnText
        = busyLabel ∧
      (clickHandler noDisplayDom (FetchResult.success goodResp)).uncaught
        = true := by decide

/-- C9 (amended): the defensive existence checks cover only the six summary
field elements, not the results display element; when the results display
element is absent the handler throws at the unconditional clear step before
the `try` block, so no request is issued, no notification is shown, the
`finally` restore never runs, and the control is left disabled with the
working label. -/
theorem c9_missing_display_aborts (d : Dom) (f : FetchResult) (a : Bool)
    (ha : d.resultArea = some a) (hd : d.resultDisplay = none) :
    (clickHandler d f).uncaught = true ∧
      (clickHandler d f).fetchCount = 0 ∧
      (clickHandler d f).request = none ∧
      (clickHandler d f).alerts = [] ∧
      (clickHandler d f).restoreCount = 0 ∧
      (clickHandler d f).dom.calcBtnDisabled = true ∧
      (clickHandler d f).dom.calcBtnText = busyLabel ∧
      (clickHandler d f).dom.resultArea = some true := by
  simp [clickHandler, ha, hd, abortOutcome]

/-- Witness for the amended C9 at the sample DOM without a results display. -/
theorem c9_missing_display_aborts_witness :
    noDisplayDom.resultArea = some false ∧ noDisplayDom.resultDisplay = none ∧
      ((clickHandler noDisplayDom (FetchResult.success goodResp)).uncaught
          = true ∧
        (clickHandler noDisplayDom (FetchResult.success goodResp)).fetchCount
          = 0 ∧
        (clickHandler noDisplayDom (FetchResult.success goodResp)).request
          = none ∧
        (clickHandler noDisplayDom (FetchResult.success goodResp)).alerts
          = [] ∧
        (clickHandler noDisplayDom (FetchResult.success goodResp)).restoreCount
          = 0 ∧
        (clickHandler noDisplayDom (FetchResult.success goodResp)).dom.calcBtnDisabled
          = true ∧
        (clickHandler noDisplayDom (FetchResult.success goodResp)).dom.calcBtnText
          = busyLabel ∧
        (clickHandler noDisplayDom (FetchResult.success goodResp)).dom.resultArea
          = some true) :=
  ⟨rfl, rfl,
    c9_missing_display_aborts noDisplayDom (FetchResult.success goodResp) false
      rfl rfl⟩
